import Mathlib

/-!
Verification development for the remittance orchestration core of the
soolution backend: the exchange-rate conversion step, the identity
verification lifecycle, the webhook ingestion path and the transaction
state transitions, shallowly embedded as pure Lean functions over explicit
list-backed stores.
-/

/-- Whether the characters of a pattern occur as a leading block of a
character list; model of a JavaScript startsWith check. -/
def listIsStart : List Char → List Char → Bool
  | _, [] => true
  | [], _ :: _ => false
  | c :: cs, p :: ps => c == p && listIsStart cs ps

/-- Whether a pattern occurs contiguously somewhere inside a character list;
model of a JavaScript includes check. -/
def listHasSeq : List Char → List Char → Bool
  | [], p => p.isEmpty
  | c :: rest, p => listIsStart (c :: rest) p || listHasSeq rest p

/-- Model of a JavaScript startsWith on strings. -/
def strStarts (s p : String) : Bool := listIsStart s.data p.data

/-- Model of a JavaScript includes on strings. -/
def strIncludes (s p : String) : Bool := listHasSeq s.data p.data

/-- One row of the exchange-rate collection (ExchangeRateSchema): source
currency code, target currency code, the numeric rate and the activity flag.
Numeric values are modeled as integers. -/
structure ExchangeRate where
  from_ : String
  to_ : String
  rate : Int
  isActive : Bool
deriving DecidableEq, Repr

/-- The lookup performed by RateUtils.convertAmount through
ExchangeRateService.findOne: the first stored rate row whose currency pair
matches the query; the query carries no condition on isActive. -/
def findRate (db : List ExchangeRate) (f t : String) : Option ExchangeRate :=
  db.find? (fun r => r.from_ == f && r.to_ == t)

/-- Result of RateUtils.convertAmount: the converted amount, or the thrown
resource-not-found error object. -/
inductive ConvertResult
  | ok (amount : Int)
  | resourceNotFound (resource : String)
deriving DecidableEq, Repr

/-- RateUtils.convertAmount: finds the first rate row for the pair and
returns rate times amount; throws resourceNotFound on a missing row. -/
def convertAmount (db : List ExchangeRate) (f t : String) (amount : Int) :
    ConvertResult :=
  match findRate db f t with
  | none => ConvertResult.resourceNotFound "Exchange rate"
  | some r => ConvertResult.ok (r.rate * amount)

/-- Status enum of a Verification (verification.model): pending, passed or
failed. -/
inductive VStatus
  | pending
  | passed
  | failed
deriving DecidableEq, Repr

/-- One Verification document: identifier, owning user id, status, optional
failure reason and the optional createdAt timestamp added by the schema
timestamps option (milliseconds). -/
structure Verification where
  id : Nat
  user : String
  status : VStatus
  reason : Option String
  createdAt : Option Int
deriving DecidableEq, Repr

/-- Status enum of a Transaction (TRANSACTION_STATUS in common/constant). -/
inductive TStatus
  | pending
  | successful
  | failed
  | cancelled
  | pending_input
  | awaiting_confirmation
  | awaiting_kyc_verification
  | processing
  | completed
deriving DecidableEq, Repr

/-- One Transaction document with the fields the orchestration core touches:
identifier, owning user id, amount, source currency, status and the two
completion timestamps. -/
structure Transaction where
  id : Nat
  user : String
  amount : Int
  fromCurrency : String
  status : TStatus
  completedAt : Option Int
  failedAt : Option Int
deriving DecidableEq, Repr

/-- One TransactionDetail document (1:1 with its Transaction, keyed by
transactionId): the QR code URL stored at creation, the two receipt URLs and
the converted amount stored at user-receipt time. -/
structure TransactionDetail where
  transactionId : Nat
  qrCodeUrl : String
  payInReceiptUrl : Option String
  payOutReceiptUrl : Option String
  fromAmount : Option Int
deriving DecidableEq, Repr

/-- One user record with the flags the webhook path mutates. -/
structure UserRec where
  id : String
  isVerified : Bool
  isKYCDone : Bool
deriving DecidableEq, Repr

/-- A bank-account row as queried by createAlipayTransaction: currency and
default flag. -/
structure BankAccount where
  currency : String
  isDefault : Bool
deriving DecidableEq, Repr

/-- The error kinds thrown by the orchestration code (error-response-message):
resourceNotFound (404), resourceAlreadyExist (409), unableToComplete (422,
the upstream-failure code) and a generic thrown runtime error. -/
inductive ErrKind
  | resourceNotFound (resource : String)
  | resourceAlreadyExists (message : String)
  | unableToComplete (message : String)
  | thrown (message : String)
deriving DecidableEq, Repr

/-- Synchronous outcome of an operation: normal return, or a thrown error. -/
inductive OpResult
  | ok
  | err (e : ErrKind)
deriving DecidableEq, Repr

/-- VerificationService.findOne with the query used across the controllers:
the first verification of the given user with the given status. -/
def findVer (vs : List Verification) (uid : String) (st : VStatus) :
    Option Verification :=
  vs.find? (fun v => v.user == uid && v.status == st)

/-- VerificationService.updateById with data setting only the status to
passed (the reason field is left as it was). -/
def setVerPassed (vs : List Verification) (vid : Nat) : List Verification :=
  vs.map (fun v => if v.id == vid then { v with status := VStatus.passed } else v)

/-- VerificationService.updateById with data setting the status to failed
and the reason to the given string. -/
def setVerFailed (vs : List Verification) (vid : Nat) (reason : String) :
    List Verification :=
  vs.map (fun v =>
    if v.id == vid then { v with status := VStatus.failed, reason := some reason }
    else v)

/-- The 24-hour staleness threshold of VerificationController.verifyUser, in
milliseconds. -/
def STALE_VERIFICATION_THRESHOLD : Int := 24 * 60 * 60 * 1000

/-- The reason recorded on an auto-expired stale pending verification. -/
def expiredReason : String := "Verification expired - please try again"

/-- Outcome of the duplicate-check and creation part of
VerificationController.verifyUser: the result (ok, or the thrown
resourceAlreadyExist error), the verification store afterwards, whether a new
pending verification was created, and whether a stale one was expired. -/
structure SubmitOutcome where
  result : OpResult
  verifications : List Verification
  proceeded : Bool
  expiredOld : Bool
deriving DecidableEq, Repr

/-- The duplicate-check and creation part of VerificationController.verifyUser
(part_008 lines 76-99 and 129-132): find a pending verification of the user;
if one exists, compute its age from createdAt (a missing createdAt counts as
infinitely old), expire it and proceed when the age exceeds the 24-hour
threshold, otherwise reject with resourceAlreadyExist; when no pending
verification blocks, create a new pending one. -/
def submitVerification (now : Int) (uid : String) (newId : Nat)
    (vs : List Verification) : SubmitOutcome :=
  match findVer vs uid VStatus.pending with
  | some v =>
    let stale : Bool :=
      match v.createdAt with
      | none => true
      | some c => decide (now - c > STALE_VERIFICATION_THRESHOLD)
    if stale then
      { result := OpResult.ok
        verifications := setVerFailed vs v.id expiredReason ++
          [⟨newId, uid, VStatus.pending, none, some now⟩]
        proceeded := true
        expiredOld := true }
    else
      { result := OpResult.err
          (ErrKind.resourceAlreadyExists "Ongoing verification Already Exists")
        verifications := vs
        proceeded := false
        expiredOld := false }
  | none =>
    { result := OpResult.ok
      verifications := vs ++ [⟨newId, uid, VStatus.pending, none, some now⟩]
      proceeded := true
      expiredOld := false }

/-- Effect of the webhook release update on a single transaction: a
transaction of the user in AWAITING_KYC_VERIFICATION moves to
AWAITING_CONFIRMATION; every other transaction is untouched. -/
def releaseOne (uid : String) (t : Transaction) : Transaction :=
  if t.user == uid && t.status == TStatus.awaiting_kyc_verification then
    { t with status := TStatus.awaiting_confirmation }
  else t

/-- The batch release performed by the webhook on a passed verification:
TransactionService.updateMany moving every transaction of the user whose
status is AWAITING_KYC_VERIFICATION to AWAITING_CONFIRMATION. -/
def bulkReleaseFromKyc (uid : String) (txs : List Transaction) :
    List Transaction :=
  txs.map (releaseOne uid)

/-- The failure-reason map of WebhookController.getFailureReason: result codes
with a fixed descriptive text. -/
def reasonMap (code : String) : Option String :=
  if code == "0000" then some "Verification successful"
  else if code == "0810" then some "Enroll User - Verification successful"
  else if code == "1012" then some "ID Number Validated - Verification successful"
  else if code == "0911" then
    some "Images unusable - Anti-spoof check failed or poor image quality"
  else if code == "0812" then some "ID number not found in database"
  else if code == "0813" then some "ID information mismatch"
  else if code == "0814" then some "Selfie does not match ID photo"
  else if code == "0815" then some "Multiple identities detected"
  else if code == "0816" then some "ID number validation failed"
  else none

/-- WebhookController.getFailureReason on string-valued action statuses:
specific sub-check failures take priority, then the reason map, then a
generic text carrying the code. -/
def getFailureReason (code selfie registerSelfie verifyId : String) : String :=
  if selfie == "Failed" then
    "Selfie verification failed - possible liveness/anti-spoof issue"
  else if registerSelfie == "Rejected" then
    "Selfie registration rejected - image quality issues"
  else if verifyId == "Not Verified" then
    "ID number could not be verified"
  else
    match reasonMap code with
    | some r => r
    | none => "Verification failed with code: " ++ code

/-- The final-success result codes of the provider (0000 and 0810). -/
def isFinalSuccessCode (c : String) : Bool := c == "0000" || c == "0810"

/-- The intermediate-success result code of the provider (1012). -/
def isIntermediateSuccessCode (c : String) : Bool := c == "1012"

/-- A failure result code: one starting with 09. -/
def isFailedCode (c : String) : Bool := strStarts c "09"

/-- The inbound webhook payload fields the handler reads: optional signature
and timestamp, the result code, the IsFinalResult flag, the three sub-check
action statuses (defaulted to Unknown by the handler when absent) and the
optional partner-params user id. -/
structure WebhookPayload where
  signature : Option String
  timestamp : Option String
  resultCode : String
  isFinalResult : Bool
  idVerificationStatus : String
  selfieCheckStatus : String
  registerSelfieStatus : String
  userId : Option String
deriving DecidableEq, Repr

/-- The critical-actions check of the webhook handler: ID verification,
selfie check and selfie registration must each report Verified or Passed. -/
def criticalActionsPassed (p : WebhookPayload) : Bool :=
  (p.idVerificationStatus == "Verified" || p.idVerificationStatus == "Passed") &&
  (p.selfieCheckStatus == "Passed" || p.selfieCheckStatus == "Verified") &&
  (p.registerSelfieStatus == "Passed" || p.registerSelfieStatus == "Verified")

/-- Classification of the callback as final: 1012 is always intermediate;
otherwise the IsFinalResult flag, a final-success code or a failure code makes
the callback final. -/
def isThisFinalResult (p : WebhookPayload) : Bool :=
  if isIntermediateSuccessCode p.resultCode then false
  else p.isFinalResult || isFinalSuccessCode p.resultCode ||
    isFailedCode p.resultCode

/-- The verification decision of the webhook handler: FORCE_VERIFY set to
true forces it; otherwise a final final-success code with all critical
actions passed. -/
def webhookIsVerified (forceVerify : Bool) (p : WebhookPayload) : Bool :=
  forceVerify ||
    (isFinalSuccessCode p.resultCode && isThisFinalResult p &&
      criticalActionsPassed p)

/-- Whether a recorded failure reason references one of the success codes 1012
or 0810, marking a verification that an intermediate callback incorrectly
failed. -/
def reasonReferencesSuccessCode (r : String) : Bool :=
  strIncludes r "1012" || strIncludes r "0810"

/-- The target-record lookup of the webhook handler: the pending verification
of the user if any; failing that, when the callback is a qualifying verified
final result, a failed verification whose reason references an intermediate
success code. -/
def locateTarget (vs : List Verification) (uid : String)
    (verified finalRes : Bool) : Option Verification :=
  match findVer vs uid VStatus.pending with
  | some v => some v
  | none =>
    if verified && finalRes then
      match findVer vs uid VStatus.failed with
      | some fv =>
        match fv.reason with
        | some r => if reasonReferencesSuccessCode r then some fv else none
        | none => none
      | none => none
    else none

/-- UserService.updateById on the webhook passed path: set the isVerified and
isKYCDone flags of the user. -/
def markUserVerified (us : List UserRec) (uid : String) : List UserRec :=
  us.map (fun u =>
    if u.id == uid then { u with isVerified := true, isKYCDone := true } else u)

/-- The persistent state the webhook handler can read and mutate. -/
structure AppState where
  verifications : List Verification
  users : List UserRec
  transactions : List Transaction
deriving DecidableEq, Repr

/-- The HTTP response of the webhook handler: status code and whether the
body carries the received:true acknowledgement. -/
structure WebhookResponse where
  status : Nat
  received : Bool
deriving DecidableEq, Repr

/-- Full outcome of one webhook delivery: the HTTP response, the state
afterwards, and whether a notification-email failure was logged (and
swallowed) on the way. -/
structure WebhookOutcome where
  response : WebhookResponse
  state : AppState
  emailFailureLogged : Bool
deriving DecidableEq, Repr

/-- WebhookController.smileIdCallback: require signature and timestamp (400
when missing), verify the signature (401 when invalid), acknowledge
intermediate codes with no state change, require the partner-params user id
(400 when missing), locate the target verification (acknowledge with no
action when none), skip non-final non-failure callbacks, and otherwise apply
the terminal transition; on the verified outcome also mark the user verified
and release the user's transactions awaiting KYC. The notification email runs
inside a try/catch whose failure is only logged. -/
def smileIdCallback (forceVerify : Bool) (verifySig : String → String → Bool)
    (emailOk : Bool) (st : AppState) (p : WebhookPayload) : WebhookOutcome :=
  match p.signature, p.timestamp with
  | some sig, some ts =>
    if verifySig sig ts then
      if isIntermediateSuccessCode p.resultCode then
        { response := ⟨200, true⟩, state := st, emailFailureLogged := false }
      else
        match p.userId with
        | none => { response := ⟨400, false⟩, state := st, emailFailureLogged := false }
        | some uid =>
          let verified := webhookIsVerified forceVerify p
          match locateTarget st.verifications uid verified (isThisFinalResult p) with
          | none => { response := ⟨200, true⟩, state := st, emailFailureLogged := false }
          | some v =>
            if !(isThisFinalResult p) && !(isFailedCode p.resultCode) then
              { response := ⟨200, true⟩, state := st, emailFailureLogged := false }
            else if verified then
              { response := ⟨200, true⟩
                state :=
                  { verifications := setVerPassed st.verifications v.id
                    users := markUserVerified st.users uid
                    transactions := bulkReleaseFromKyc uid st.transactions }
                emailFailureLogged := !emailOk }
            else
              let reason := getFailureReason p.resultCode p.selfieCheckStatus
                p.registerSelfieStatus p.idVerificationStatus
              { response := ⟨200, true⟩
                state := { st with verifications := setVerFailed st.verifications v.id reason }
                emailFailureLogged := !emailOk }
    else { response := ⟨401, false⟩, state := st, emailFailureLogged := false }
  | _, _ => { response := ⟨400, false⟩, state := st, emailFailureLogged := false }

/-- The transaction-side persistent state of TransactionService: the
transactions collection and the transaction-details collection. -/
structure TxStoreState where
  transactions : List Transaction
  details : List TransactionDetail
deriving DecidableEq, Repr

/-- DBService.updateById on a transaction with a status-only update document:
findByIdAndUpdate sets exactly the given field and runs no document
middleware. -/
def updateTxStatusById (txs : List Transaction) (txId : Nat) (s : TStatus) :
    List Transaction :=
  txs.map (fun t => if t.id == txId then { t with status := s } else t)

/-- TransactionDetailsService.update keyed on transactionId, applying an
update document to the (single) matching detail. -/
def updateDetail (ds : List TransactionDetail) (txId : Nat)
    (f : TransactionDetail → TransactionDetail) : List TransactionDetail :=
  ds.map (fun d => if d.transactionId == txId then f d else d)

/-- Outcome of TransactionService.createAlipayTransaction: the result, whether
the QR-code upload was attempted, the store afterwards, and whether a
notification failure was logged (and swallowed). -/
structure CreateOutcome where
  result : OpResult
  uploadAttempted : Bool
  state : TxStoreState
  notifFailureLogged : Bool
deriving DecidableEq, Repr

/-- TransactionService.createAlipayTransaction: find the default bank-account
row for the source currency (throw resourceNotFound when missing), upload the
QR code (throw unableToComplete on failure), then create the transaction in
PENDING_INPUT and its detail; the payment-initiated notification runs inside
a try/catch whose failure is only logged. -/
def createAlipayTransaction (banks : List BankAccount) (uploadOk notifOk : Bool)
    (amount : Int) (fromCurrency : String) (uid : String) (newTxId : Nat)
    (qrUrl : String) (st : TxStoreState) : CreateOutcome :=
  match banks.find? (fun b => b.isDefault && b.currency == fromCurrency) with
  | none =>
    { result := OpResult.err
        (ErrKind.resourceNotFound ("Bank details for " ++ fromCurrency))
      uploadAttempted := false
      state := st
      notifFailureLogged := false }
  | some _ =>
    if uploadOk then
      { result := OpResult.ok
        uploadAttempted := true
        state :=
          { transactions := st.transactions ++
              [⟨newTxId, uid, amount, fromCurrency, TStatus.pending_input, none, none⟩]
            details := st.details ++ [⟨newTxId, qrUrl, none, none, none⟩] }
        notifFailureLogged := !notifOk }
    else
      { result := OpResult.err (ErrKind.unableToComplete "Alipay Qrcode upload failed")
        uploadAttempted := true
        state := st
        notifFailureLogged := false }

/-- The admin email fan-out loop of NotificationService.notifyAdmins: each
address is attempted inside its own try/catch, so every address is attempted
and each failure is recorded, never rethrown. -/
def notifyAdminsEmails (emailOk : String → Bool) (emails : List String) :
    List (String × Bool) :=
  emails.map (fun e => (e, emailOk e))

/-- The admin WhatsApp fan-out loop of NotificationService.notifyAdmins: each
phone number is attempted inside its own try/catch. -/
def notifyAdminsWa (waOk : String → Bool) (phones : List String) :
    List (String × Bool) :=
  phones.map (fun ph => (ph, waOk ph))

/-- Outcome of a receipt-upload operation of TransactionService: the result,
the store afterwards, the admin notification attempts made (with their
per-recipient success flags) and whether a failure was swallowed inside a
try/catch. -/
structure ReceiptOpOutcome where
  result : OpResult
  state : TxStoreState
  adminEmailAttempts : List (String × Bool)
  adminWaAttempts : List (String × Bool)
  swallowedFailure : Bool
deriving DecidableEq, Repr

/-- TransactionService.uploadUserPaymentReceipt: upload the receipt (throw
unableToComplete on failure), read the transaction, convert its amount to RMB
via RateUtils (the thrown lookup error propagates), store the receipt URL and
converted amount on the detail, set the status to AWAITING_CONFIRMATION or
AWAITING_KYC_VERIFICATION by the KYC flag, then call notifyAdmins whose
attachment downloads are evaluated outside any try/catch: a storage download
failure therefore propagates to the caller after the status update has been
committed, while per-recipient send failures stay inside notifyAdmins. -/
def uploadUserPaymentReceipt (uploadOk : Bool) (rates : List ExchangeRate)
    (downloadOk : String → Bool) (emailOk waOk : String → Bool)
    (adminEmails adminPhones : List String) (st : TxStoreState) (txId : Nat)
    (receiptUrl : String) (isKycDone : Bool) : ReceiptOpOutcome :=
  if uploadOk then
    match st.transactions.find? (fun t => t.id == txId) with
    | none =>
      { result := OpResult.err (ErrKind.resourceNotFound "Exchange rate")
        state := st
        adminEmailAttempts := []
        adminWaAttempts := []
        swallowedFailure := false }
    | some tx =>
      match convertAmount rates tx.fromCurrency "RMB" tx.amount with
      | ConvertResult.resourceNotFound r =>
        { result := OpResult.err (ErrKind.resourceNotFound r)
          state := st
          adminEmailAttempts := []
          adminWaAttempts := []
          swallowedFailure := false }
      | ConvertResult.ok fromAmount =>
        let st1 : TxStoreState :=
          { transactions := updateTxStatusById st.transactions txId
              (if isKycDone then TStatus.awaiting_confirmation
               else TStatus.awaiting_kyc_verification)
            details := updateDetail st.details txId
              (fun d => { d with payInReceiptUrl := some receiptUrl,
                                 fromAmount := some fromAmount }) }
        let qrUrl :=
          match st.details.find? (fun d => d.transactionId == txId) with
          | some d => d.qrCodeUrl
          | none => ""
        if downloadOk qrUrl && downloadOk receiptUrl then
          { result := OpResult.ok
            state := st1
            adminEmailAttempts := notifyAdminsEmails emailOk adminEmails
            adminWaAttempts := notifyAdminsWa waOk adminPhones
            swallowedFailure := false }
        else
          { result := OpResult.err (ErrKind.thrown "storage download failed")
            state := st1
            adminEmailAttempts := []
            adminWaAttempts := []
            swallowedFailure := false }
  else
    { result := OpResult.err (ErrKind.unableToComplete "Payment receipt upload failed")
      state := st
      adminEmailAttempts := []
      adminWaAttempts := []
      swallowedFailure := false }

/-- TransactionService.uploadAdminPaymentReceipt: upload the settlement proof
(throw unableToComplete on failure), store the receipt URL on the detail and
set the status to COMPLETED via updateById; the completed-payment
notification, attachment download included, runs inside a try/catch whose
failure is only logged. -/
def uploadAdminPaymentReceipt (uploadOk : Bool) (downloadOk : String → Bool)
    (notifOk : Bool) (st : TxStoreState) (txId : Nat) (receiptUrl : String) :
    ReceiptOpOutcome :=
  if uploadOk then
    let st1 : TxStoreState :=
      { transactions := updateTxStatusById st.transactions txId TStatus.completed
        details := updateDetail st.details txId
          (fun d => { d with payOutReceiptUrl := some receiptUrl }) }
    let swallowed :=
      match st.transactions.find? (fun t => t.id == txId) with
      | some _ => !(downloadOk receiptUrl && notifOk)
      | none => false
    { result := OpResult.ok
      state := st1
      adminEmailAttempts := []
      adminWaAttempts := []
      swallowedFailure := swallowed }
  else
    { result := OpResult.err (ErrKind.unableToComplete "Payment receipt upload failed")
      state := st
      adminEmailAttempts := []
      adminWaAttempts := []
      swallowedFailure := false }

/-- The completion-timestamp invariant stated for Transactions: completedAt
set exactly on COMPLETED, failedAt set exactly on FAILED, never both set. -/
def txTimestampInvariant (t : Transaction) : Prop :=
  (t.completedAt.isSome ↔ t.status = TStatus.completed) ∧
  (t.failedAt.isSome ↔ t.status = TStatus.failed) ∧
  ¬(t.completedAt.isSome ∧ t.failedAt.isSome)

instance (t : Transaction) : Decidable (txTimestampInvariant t) := by
  unfold txTimestampInvariant
  infer_instance

/-- The TransactionSchema pre-save middleware: on COMPLETED ensure completedAt
is set and clear failedAt; on FAILED ensure failedAt is set and clear
completedAt; on PENDING or PROCESSING clear both; other statuses untouched.
Document saves run it; findByIdAndUpdate does not. -/
def preSaveNormalize (now : Int) (t : Transaction) : Transaction :=
  if t.status = TStatus.completed then
    { t with completedAt := some (t.completedAt.getD now), failedAt := none }
  else if t.status = TStatus.failed then
    { t with failedAt := some (t.failedAt.getD now), completedAt := none }
  else if t.status = TStatus.pending ∨ t.status = TStatus.processing then
    { t with completedAt := none, failedAt := none }
  else t

-- ===== Theorems =====

/-- C1 counterexample: a store whose only rate row for the pair (NGN, RMB) is
inactive. The claim requires the conversion to fail with resourceNotFound
because no active rate row exists, but convertAmount converts anyway: the
findOne query never filters on isActive. -/
theorem convertAmount_inactive_counterexample :
    ([ExchangeRate.mk "NGN" "RMB" 2 false].all fun r => !r.isActive) = true ∧
    convertAmount [ExchangeRate.mk "NGN" "RMB" 2 false] "NGN" "RMB" 5 =
      ConvertResult.ok 10 ∧
    convertAmount [ExchangeRate.mk "NGN" "RMB" 2 false] "NGN" "RMB" 5 ≠
      ConvertResult.resourceNotFound "Exchange rate" := by
  refine ⟨rfl, by decide, by decide⟩

/-- C1 (amended): convertAmount multiplies the amount by the rate of the first
stored row matching the pair, whether or not that row is active; it fails with
resourceNotFound exactly when no row at all matches the pair. -/
theorem convertAmount_first_pair_row (db : List ExchangeRate) (f t : String)
    (amount : Int) :
    (∀ r, findRate db f t = some r →
      r ∈ db ∧ r.from_ = f ∧ r.to_ = t ∧
        convertAmount db f t amount = ConvertResult.ok (r.rate * amount)) ∧
    ((∀ r ∈ db, ¬(r.from_ = f ∧ r.to_ = t)) →
      convertAmount db f t amount =
        ConvertResult.resourceNotFound "Exchange rate") := by
  constructor
  · intro r hr
    have hr' : db.find? (fun x => x.from_ == f && x.to_ == t) = some r := hr
    have hmem : r ∈ db := List.mem_of_find?_eq_some hr'
    have hp := List.find?_some hr'
    simp only [Bool.and_eq_true, beq_iff_eq] at hp
    refine ⟨hmem, hp.1, hp.2, ?_⟩
    unfold convertAmount
    rw [hr]
  · intro hnone
    have : db.find? (fun x => x.from_ == f && x.to_ == t) = none := by
      apply List.find?_eq_none.mpr
      intro r hr
      have := hnone r hr
      simp only [Bool.and_eq_true, beq_iff_eq]
      intro hcontra
      exact this hcontra
    unfold convertAmount findRate
    rw [this]

/-- C1 witness: the amended theorem applied at a one-row active store,
converting 5 NGN at rate 2 into 10. -/
theorem convertAmount_first_pair_row_witness :
    convertAmount [ExchangeRate.mk "NGN" "RMB" 2 true] "NGN" "RMB" 5 =
      ConvertResult.ok 10 := by
  have h :=
    (convertAmount_first_pair_row [ExchangeRate.mk "NGN" "RMB" 2 true]
        "NGN" "RMB" 5).1
      (ExchangeRate.mk "NGN" "RMB" 2 true) (by decide)
  exact h.2.2.2.trans (by decide)

/-- C3: bulkReleaseFromKyc transitions every transaction of the user whose
status is AWAITING_KYC_VERIFICATION to AWAITING_CONFIRMATION in one batch
(and leaves no such transaction behind), and it is idempotent: a second
application immediately after the first is a no-op. -/
theorem bulkReleaseFromKyc_releases_and_idempotent (uid : String)
    (txs : List Transaction) :
    (∀ t ∈ txs, t.user = uid → t.status = TStatus.awaiting_kyc_verification →
      { t with status := TStatus.awaiting_confirmation } ∈
        bulkReleaseFromKyc uid txs) ∧
    (∀ t ∈ bulkReleaseFromKyc uid txs,
      ¬(t.user = uid ∧ t.status = TStatus.awaiting_kyc_verification)) ∧
    bulkReleaseFromKyc uid (bulkReleaseFromKyc uid txs) =
      bulkReleaseFromKyc uid txs := by
  refine ⟨?_, ?_, ?_⟩
  · intro t ht hu hs
    unfold bulkReleaseFromKyc
    refine List.mem_map.mpr ⟨t, ht, ?_⟩
    unfold releaseOne
    simp [hu, hs]
  · intro t ht
    unfold bulkReleaseFromKyc at ht
    rcases List.mem_map.mp ht with ⟨s, _, heq⟩
    unfold releaseOne at heq
    by_cases hcond :
        (s.user == uid && s.status == TStatus.awaiting_kyc_verification) = true
    · rw [if_pos hcond] at heq
      rintro ⟨-, h2⟩
      rw [← heq] at h2
      simp at h2
    · rw [if_neg hcond] at heq
      rintro ⟨h1, h2⟩
      rw [← heq] at h1 h2
      simp only [Bool.and_eq_true, beq_iff_eq] at hcond
      exact hcond ⟨h1, h2⟩
  · unfold bulkReleaseFromKyc
    rw [List.map_map]
    apply List.map_congr_left
    intro t _
    show releaseOne uid (releaseOne uid t) = releaseOne uid t
    unfold releaseOne
    by_cases hcond :
        (t.user == uid && t.status == TStatus.awaiting_kyc_verification) = true
    · rw [if_pos hcond]
      simp
    · rw [if_neg hcond, if_neg hcond]

/-- C3 witness: the batch release applied to a two-transaction store of user
u1, one awaiting KYC and one already completed; the awaiting transaction is
released, no awaiting transaction remains, and a second application changes
nothing. -/
theorem bulkReleaseFromKyc_witness :
    ({ id := 1, user := "u1", amount := 5, fromCurrency := "NGN",
       status := TStatus.awaiting_confirmation, completedAt := none,
       failedAt := none : Transaction } ∈
      bulkReleaseFromKyc "u1"
        [⟨1, "u1", 5, "NGN", TStatus.awaiting_kyc_verification, none, none⟩,
         ⟨2, "u1", 7, "NGN", TStatus.completed, some 3, none⟩]) ∧
    bulkReleaseFromKyc "u1"
        (bulkReleaseFromKyc "u1"
          [⟨1, "u1", 5, "NGN", TStatus.awaiting_kyc_verification, none, none⟩,
           ⟨2, "u1", 7, "NGN", TStatus.completed, some 3, none⟩]) =
      bulkReleaseFromKyc "u1"
        [⟨1, "u1", 5, "NGN", TStatus.awaiting_kyc_verification, none, none⟩,
         ⟨2, "u1", 7, "NGN", TStatus.completed, some 3, none⟩] := by
  constructor
  · exact (bulkReleaseFromKyc_releases_and_idempotent "u1"
      [⟨1, "u1", 5, "NGN", TStatus.awaiting_kyc_verification, none, none⟩,
       ⟨2, "u1", 7, "NGN", TStatus.completed, some 3, none⟩]).1
      ⟨1, "u1", 5, "NGN", TStatus.awaiting_kyc_verification, none, none⟩
      (by decide) rfl rfl
  · exact (bulkReleaseFromKyc_releases_and_idempotent "u1"
      [⟨1, "u1", 5, "NGN", TStatus.awaiting_kyc_verification, none, none⟩,
       ⟨2, "u1", 7, "NGN", TStatus.completed, some 3, none⟩]).2.2

/-- C4: when a pending verification of the user exists with a createdAt
timestamp, a submission younger than the 24-hour threshold is rejected with
resourceAlreadyExist and the store is unchanged; one older than the threshold
expires the stale record to failed with the expiry reason and proceeds,
creating a new pending verification. -/
theorem submitVerification_staleness (now : Int) (uid : String) (newId : Nat)
    (vs : List Verification) (v : Verification) (c : Int)
    (hfind : findVer vs uid VStatus.pending = some v)
    (hc : v.createdAt = some c) :
    (now - c < STALE_VERIFICATION_THRESHOLD →
      (submitVerification now uid newId vs).result =
        OpResult.err
          (ErrKind.resourceAlreadyExists "Ongoing verification Already Exists") ∧
      (submitVerification now uid newId vs).verifications = vs) ∧
    (now - c > STALE_VERIFICATION_THRESHOLD →
      (submitVerification now uid newId vs).result = OpResult.ok ∧
      (submitVerification now uid newId vs).verifications =
        setVerFailed vs v.id expiredReason ++
          [⟨newId, uid, VStatus.pending, none, some now⟩] ∧
      (submitVerification now uid newId vs).proceeded = true) := by
  unfold submitVerification
  rw [hfind]
  dsimp only
  rw [hc]
  constructor
  · intro h
    have hd : decide (now - c > STALE_VERIFICATION_THRESHOLD) = false := by
      simp only [decide_eq_false_iff_not]
      omega
    simp [hd]
  · intro h
    have hd : decide (now - c > STALE_VERIFICATION_THRESHOLD) = true := by
      simpa using h
    simp [hd]

/-- C4 witness: with a pending verification created at time 0, a submission at
time 1000 (younger than 24 hours) is rejected and the store unchanged, and a
submission at time 90000000 (older than 24 hours) expires it and creates a
new pending verification. -/
theorem submitVerification_staleness_witness :
    ((submitVerification 1000 "u1" 2
        [⟨1, "u1", VStatus.pending, none, some 0⟩]).result =
      OpResult.err
        (ErrKind.resourceAlreadyExists "Ongoing verification Already Exists") ∧
     (submitVerification 1000 "u1" 2
        [⟨1, "u1", VStatus.pending, none, some 0⟩]).verifications =
      [⟨1, "u1", VStatus.pending, none, some 0⟩]) ∧
    (submitVerification 90000000 "u1" 2
        [⟨1, "u1", VStatus.pending, none, some 0⟩]).proceeded = true := by
  constructor
  · exact (submitVerification_staleness 1000 "u1" 2
      [⟨1, "u1", VStatus.pending, none, some 0⟩]
      ⟨1, "u1", VStatus.pending, none, some 0⟩ 0 (by decide) rfl).1 (by decide)
  · exact ((submitVerification_staleness 90000000 "u1" 2
      [⟨1, "u1", VStatus.pending, none, some 0⟩]
      ⟨1, "u1", VStatus.pending, none, some 0⟩ 0 (by decide) rfl).2
      (by decide)).2.2

/-- C10: when the existing pending verification of the user carries no
createdAt timestamp, its age is treated as infinite: the record is
unconditionally expired to failed with the expiry reason and the submission
proceeds, creating a new pending verification, whatever the current time. -/
theorem submitVerification_missing_createdAt (now : Int) (uid : String)
    (newId : Nat) (vs : List Verification) (v : Verification)
    (hfind : findVer vs uid VStatus.pending = some v)
    (hc : v.createdAt = none) :
    (submitVerification now uid newId vs).result = OpResult.ok ∧
    (submitVerification now uid newId vs).expiredOld = true ∧
    (submitVerification now uid newId vs).proceeded = true ∧
    (submitVerification now uid newId vs).verifications =
      setVerFailed vs v.id expiredReason ++
        [⟨newId, uid, VStatus.pending, none, some now⟩] := by
  unfold submitVerification
  rw [hfind]
  dsimp only
  rw [hc]
  simp

/-- C10 witness: a pending verification without createdAt is expired and a new
pending one created even at time 0. -/
theorem submitVerification_missing_createdAt_witness :
    (submitVerification 0 "u1" 2
        [⟨1, "u1", VStatus.pending, none, none⟩]).expiredOld = true ∧
    (submitVerification 0 "u1" 2
        [⟨1, "u1", VStatus.pending, none, none⟩]).proceeded = true := by
  have h := submitVerification_missing_createdAt 0 "u1" 2
    [⟨1, "u1", VStatus.pending, none, none⟩]
    ⟨1, "u1", VStatus.pending, none, none⟩ (by decide) rfl
  exact ⟨h.2.1, h.2.2.1⟩

/-- C2 counterexample: a webhook delivery whose signature and timestamp are
present and verify correctly, but whose PartnerParams carry no user id. The
claim requires HTTP 200 with received true for every signature-valid request,
yet the handler responds 400. -/
theorem smileIdCallback_missing_user_id_counterexample :
    (smileIdCallback false (fun _ _ => true) true ⟨[], [], []⟩
        ⟨some "s", some "t", "0000", false, "Unknown", "Unknown", "Unknown",
          none⟩).response.status = 400 ∧
    (smileIdCallback false (fun _ _ => true) true ⟨[], [], []⟩
        ⟨some "s", some "t", "0000", false, "Unknown", "Unknown", "Unknown",
          none⟩).response ≠ ⟨200, true⟩ := by
  exact ⟨rfl, by decide⟩

/-- C2 (amended): a signature-valid webhook whose PartnerParams carry a user
id is always answered 200 with received true, whatever the payload or store;
and every non-200 response (missing or invalid signature, or missing user id)
leaves the state unchanged. -/
theorem smileIdCallback_ack_and_no_mutation (forceVerify : Bool)
    (verifySig : String → String → Bool) (emailOk : Bool) (st : AppState)
    (p : WebhookPayload) :
    ((∃ sig ts, p.signature = some sig ∧ p.timestamp = some ts ∧
        verifySig sig ts = true) → p.userId ≠ none →
      (smileIdCallback forceVerify verifySig emailOk st p).response = ⟨200, true⟩) ∧
    ((smileIdCallback forceVerify verifySig emailOk st p).response.status ≠ 200 →
      (smileIdCallback forceVerify verifySig emailOk st p).state = st) := by
  constructor
  · rintro ⟨sig, ts, hs, ht, hv⟩ hu
    rcases hpu : p.userId with _ | uid
    · exact absurd hpu hu
    unfold smileIdCallback
    rw [hs, ht]
    simp only [hv, if_true, hpu]
    by_cases hint : isIntermediateSuccessCode p.resultCode = true
    · simp [hint]
    · simp only [hint, if_false, Bool.false_eq_true]
      rcases htar : locateTarget st.verifications uid (webhookIsVerified forceVerify p)
          (isThisFinalResult p) with _ | v
      · simp [htar]
      · simp only [htar]
        by_cases hskip : (!(isThisFinalResult p) && !(isFailedCode p.resultCode)) = true
        · simp [hskip]
        · by_cases hver : webhookIsVerified forceVerify p = true
          · simp [hskip, hver]
          · simp [hskip, hver]
  · unfold smileIdCallback
    rcases hs : p.signature with _ | sig <;>
      rcases ht : p.timestamp with _ | ts <;>
        dsimp only
    · intro _
      rfl
    · intro _
      rfl
    · intro _
      rfl
    · by_cases hv : verifySig sig ts = true
      · rw [if_pos hv]
        by_cases hint : isIntermediateSuccessCode p.resultCode = true
        · rw [if_pos hint]
          intro h
          exact absurd rfl h
        · rw [if_neg hint]
          rcases hpu : p.userId with _ | uid <;> dsimp only
          · intro _
            rfl
          · rcases htar : locateTarget st.verifications uid
                (webhookIsVerified forceVerify p) (isThisFinalResult p) with _ | v <;>
              dsimp only
            · intro h
              exact absurd rfl h
            · by_cases hskip : (!(isThisFinalResult p) && !(isFailedCode p.resultCode)) = true
              · rw [if_pos hskip]
                intro h
                exact absurd rfl h
              · rw [if_neg hskip]
                by_cases hver : webhookIsVerified forceVerify p = true
                · rw [if_pos hver]
                  intro h
                  exact absurd rfl h
                · rw [if_neg hver]
                  intro h
                  exact absurd rfl h
      · rw [if_neg hv]
        intro _
        rfl

/-- C2 witness: a signature-valid delivery carrying a user id, on the empty
store, is answered 200 with received true. -/
theorem smileIdCallback_ack_and_no_mutation_witness :
    (smileIdCallback false (fun _ _ => true) true ⟨[], [], []⟩
        ⟨some "s", some "t", "0000", false, "Unknown", "Unknown", "Unknown",
          some "u1"⟩).response = ⟨200, true⟩ := by
  exact (smileIdCallback_ack_and_no_mutation false (fun _ _ => true) true
      ⟨[], [], []⟩
      ⟨some "s", some "t", "0000", false, "Unknown", "Unknown", "Unknown",
        some "u1"⟩).1 ⟨"s", "t", rfl, rfl, rfl⟩ (by decide)

/-- C9: with FORCE_VERIFY set, every signature-valid webhook that carries a
user id, whose result code is classified final and is not the intermediate
code 1012, and that locates a target verification, sets that verification to
passed, marks the user verified and KYC-done, and releases every transaction
of the user awaiting KYC — whatever the sub-check statuses, including failure
result codes. -/
theorem smileIdCallback_force_verify (verifySig : String → String → Bool)
    (emailOk : Bool) (st : AppState) (p : WebhookPayload) (sig ts uid : String)
    (v : Verification)
    (hs : p.signature = some sig) (ht : p.timestamp = some ts)
    (hv : verifySig sig ts = true) (hu : p.userId = some uid)
    (hni : isIntermediateSuccessCode p.resultCode = false)
    (hfin : (p.isFinalResult || isFinalSuccessCode p.resultCode ||
      isFailedCode p.resultCode) = true)
    (htarget : locateTarget st.verifications uid true true = some v) :
    smileIdCallback true verifySig emailOk st p =
      { response := ⟨200, true⟩
        state :=
          { verifications := setVerPassed st.verifications v.id
            users := markUserVerified st.users uid
            transactions := bulkReleaseFromKyc uid st.transactions }
        emailFailureLogged := !emailOk } := by
  have hfinal : isThisFinalResult p = true := by
    unfold isThisFinalResult
    rw [if_neg (by simp [hni])]
    exact hfin
  have hver : webhookIsVerified true p = true := by
    unfold webhookIsVerified
    simp
  unfold smileIdCallback
  rw [hs, ht]
  dsimp only
  rw [if_pos hv, if_neg (by simp [hni]), hu]
  dsimp only
  rw [hver, hfinal, htarget]
  dsimp only
  rw [if_neg (by simp [hfinal]), if_pos rfl]

/-- C9 witness: FORCE_VERIFY with the failure result code 0911 and all
sub-checks Unknown still passes the pending verification of user u1, marks
the user verified and releases the transaction awaiting KYC. -/
theorem smileIdCallback_force_verify_witness :
    smileIdCallback true (fun _ _ => true) true
        ⟨[⟨1, "u1", VStatus.pending, none, some 0⟩], [⟨"u1", false, false⟩],
         [⟨1, "u1", 5, "NGN", TStatus.awaiting_kyc_verification, none, none⟩]⟩
        ⟨some "s", some "t", "0911", false, "Unknown", "Unknown", "Unknown",
          some "u1"⟩ =
      { response := ⟨200, true⟩
        state := ⟨[⟨1, "u1", VStatus.passed, none, some 0⟩],
          [⟨"u1", true, true⟩],
          [⟨1, "u1", 5, "NGN", TStatus.awaiting_confirmation, none, none⟩]⟩
        emailFailureLogged := false } := by
  have h := smileIdCallback_force_verify (fun _ _ => true) true
    ⟨[⟨1, "u1", VStatus.pending, none, some 0⟩], [⟨"u1", false, false⟩],
     [⟨1, "u1", 5, "NGN", TStatus.awaiting_kyc_verification, none, none⟩]⟩
    ⟨some "s", some "t", "0911", false, "Unknown", "Unknown", "Unknown",
      some "u1"⟩
    "s" "t" "u1" ⟨1, "u1", VStatus.pending, none, some 0⟩ rfl rfl rfl rfl
    (by decide) (by decide) (by decide)
  rw [h]
  decide

/-- C5 counterexample: the operator-receipt step applied to a transaction
still in PENDING_INPUT. The claim requires that COMPLETED not be applied when
the required predecessor status does not hold, yet the operation moves the
transaction straight to COMPLETED: the status update is keyed only on the
transaction id and checks no current status. -/
theorem uploadAdminPaymentReceipt_skips_predecessor_counterexample :
    (uploadAdminPaymentReceipt true (fun _ => true) true
        ⟨[⟨1, "u1", 5, "NGN", TStatus.pending_input, none, none⟩], []⟩ 1
        "http://r").state.transactions =
      [⟨1, "u1", 5, "NGN", TStatus.completed, none, none⟩] ∧
    (uploadAdminPaymentReceipt true (fun _ => true) true
        ⟨[⟨1, "u1", 5, "NGN", TStatus.pending_input, none, none⟩], []⟩ 1
        "http://r").result = OpResult.ok := by
  exact ⟨by decide, rfl⟩

/-- C5 (amended): the transition operations apply their fixed target status
unconditionally, with no predecessor check: with a successful upload the
operator-receipt step sets COMPLETED on the matching transaction whatever its
current status (and leaves the others alone), and the user-receipt step
likewise sets its AWAITING target status chosen by the KYC flag whatever the
current status, so status paths that skip required predecessors are
reachable. -/
theorem receipt_transitions_unguarded (downloadOk : String → Bool)
    (notifOk : Bool) (st : TxStoreState) (txId : Nat) (receiptUrl : String)
    (rates : List ExchangeRate) (emailOk waOk : String → Bool)
    (adminEmails adminPhones : List String) (isKycDone : Bool) :
    (∀ t ∈ st.transactions, t.id = txId →
      { t with status := TStatus.completed } ∈
        (uploadAdminPaymentReceipt true downloadOk notifOk st txId
          receiptUrl).state.transactions) ∧
    (∀ t ∈ st.transactions, t.id ≠ txId →
      t ∈ (uploadAdminPaymentReceipt true downloadOk notifOk st txId
        receiptUrl).state.transactions) ∧
    (∀ tx fromAmount, st.transactions.find? (fun t => t.id == txId) = some tx →
      convertAmount rates tx.fromCurrency "RMB" tx.amount =
        ConvertResult.ok fromAmount →
      { tx with status := (if isKycDone then TStatus.awaiting_confirmation
          else TStatus.awaiting_kyc_verification) } ∈
        (uploadUserPaymentReceipt true rates downloadOk emailOk waOk adminEmails
          adminPhones st txId receiptUrl isKycDone).state.transactions) := by
  refine ⟨?_, ?_, ?_⟩
  · intro t ht hid
    unfold uploadAdminPaymentReceipt
    dsimp only
    unfold updateTxStatusById
    refine List.mem_map.mpr ⟨t, ht, ?_⟩
    simp [hid]
  · intro t ht hid
    unfold uploadAdminPaymentReceipt
    dsimp only
    unfold updateTxStatusById
    refine List.mem_map.mpr ⟨t, ht, ?_⟩
    simp [hid]
  · intro tx fromAmount hfind hconv
    have hmem : tx ∈ st.transactions := List.mem_of_find?_eq_some hfind
    have hid := List.find?_some hfind
    simp only [beq_iff_eq] at hid
    have hmem2 : { tx with status := (if isKycDone then TStatus.awaiting_confirmation
        else TStatus.awaiting_kyc_verification) } ∈
        updateTxStatusById st.transactions txId
          (if isKycDone then TStatus.awaiting_confirmation
           else TStatus.awaiting_kyc_verification) := by
      unfold updateTxStatusById
      refine List.mem_map.mpr ⟨tx, hmem, ?_⟩
      simp [hid]
    unfold uploadUserPaymentReceipt
    rw [if_pos rfl, hfind]
    dsimp only
    rw [hconv]
    dsimp only
    split
    · exact hmem2
    · exact hmem2

/-- C5 witness: the amended theorem applied to a one-transaction store in
PENDING_INPUT: the operator-receipt step puts it in COMPLETED. -/
theorem receipt_transitions_unguarded_witness :
    ({ id := 1, user := "u1", amount := 5, fromCurrency := "NGN",
       status := TStatus.completed, completedAt := none,
       failedAt := none : Transaction } ∈
      (uploadAdminPaymentReceipt true (fun _ => true) true
        ⟨[⟨1, "u1", 5, "NGN", TStatus.pending_input, none, none⟩], []⟩ 1
        "http://r").state.transactions) := by
  exact (receipt_transitions_unguarded (fun _ => true) true
      ⟨[⟨1, "u1", 5, "NGN", TStatus.pending_input, none, none⟩], []⟩ 1
      "http://r" [] (fun _ => true) (fun _ => true) [] [] true).1
    ⟨1, "u1", 5, "NGN", TStatus.pending_input, none, none⟩ (by decide) rfl

/-- C6: evaluation at the failing input. A transaction in
AWAITING_CONFIRMATION with both timestamps clear satisfies the
completion-timestamp invariant; the operator-receipt step moves it to
COMPLETED through updateById (findByIdAndUpdate), which runs no document
middleware, leaving completedAt unset and violating the invariant — while the
pre-save normalization of the schema, had it run, would establish it. -/
theorem updateById_bypasses_timestamp_normalization :
    txTimestampInvariant
      ⟨1, "u1", 5, "NGN", TStatus.awaiting_confirmation, none, none⟩ ∧
    (uploadAdminPaymentReceipt true (fun _ => true) true
        ⟨[⟨1, "u1", 5, "NGN", TStatus.awaiting_confirmation, none, none⟩], []⟩ 1
        "http://r").state.transactions =
      [⟨1, "u1", 5, "NGN", TStatus.completed, none, none⟩] ∧
    ¬ txTimestampInvariant ⟨1, "u1", 5, "NGN", TStatus.completed, none, none⟩ ∧
    txTimestampInvariant
      (preSaveNormalize 7 ⟨1, "u1", 5, "NGN", TStatus.completed, none, none⟩) := by
  refine ⟨by decide, by decide, by decide, by decide⟩

/-- C7: when a default bank-account row for the source currency exists and
the QR-code upload fails, createAlipayTransaction throws unableToComplete
(the 422 upstream-failure error) and persists nothing — neither a Transaction
nor a TransactionDetail; when no default bank-account row exists for the
currency, it throws resourceNotFound before attempting any upload and
persists nothing. -/
theorem createAlipayTransaction_atomic (banks : List BankAccount)
    (notifOk : Bool) (amount : Int) (fromCurrency uid : String) (newTxId : Nat)
    (qrUrl : String) (st : TxStoreState) :
    ((∃ b, banks.find? (fun x => x.isDefault && x.currency == fromCurrency) =
        some b) →
      (createAlipayTransaction banks false notifOk amount fromCurrency uid
          newTxId qrUrl st).result =
        OpResult.err (ErrKind.unableToComplete "Alipay Qrcode upload failed") ∧
      (createAlipayTransaction banks false notifOk amount fromCurrency uid
          newTxId qrUrl st).state = st) ∧
    (banks.find? (fun x => x.isDefault && x.currency == fromCurrency) = none →
      ∀ uploadOk,
        (createAlipayTransaction banks uploadOk notifOk amount fromCurrency uid
            newTxId qrUrl st).result =
          OpResult.err
            (ErrKind.resourceNotFound ("Bank details for " ++ fromCurrency)) ∧
        (createAlipayTransaction banks uploadOk notifOk amount fromCurrency uid
            newTxId qrUrl st).uploadAttempted = false ∧
        (createAlipayTransaction banks uploadOk notifOk amount fromCurrency uid
            newTxId qrUrl st).state = st) := by
  constructor
  · rintro ⟨b, hb⟩
    unfold createAlipayTransaction
    rw [hb]
    exact ⟨rfl, rfl⟩
  · intro hb uploadOk
    unfold createAlipayTransaction
    rw [hb]
    exact ⟨rfl, rfl, rfl⟩

/-- C7 witness: on a store with a default NGN bank account and a failing
upload, the creation throws unableToComplete and the store is unchanged. -/
theorem createAlipayTransaction_atomic_witness :
    (createAlipayTransaction [⟨"NGN", true⟩] false true 5 "NGN" "u1" 7
        "http://q" ⟨[], []⟩).result =
      OpResult.err (ErrKind.unableToComplete "Alipay Qrcode upload failed") ∧
    (createAlipayTransaction [⟨"NGN", true⟩] false true 5 "NGN" "u1" 7
        "http://q" ⟨[], []⟩).state = ⟨[], []⟩ := by
  exact (createAlipayTransaction_atomic [⟨"NGN", true⟩] true 5 "NGN" "u1" 7
    "http://q" ⟨[], []⟩).1 ⟨⟨"NGN", true⟩, by decide⟩

/-- C8 counterexample: during the user-receipt upload the attachment bytes
are fetched from storage outside any try/catch, in the argument list of
notifyAdmins. The claim requires every notification fan-out failure,
attachment fetch included, to be swallowed, yet a failing download makes the
operation throw to its caller — after the status transition has already been
committed. -/
theorem uploadUserPaymentReceipt_download_failure_counterexample :
    (uploadUserPaymentReceipt true [⟨"NGN", "RMB", 2, true⟩] (fun _ => false)
        (fun _ => true) (fun _ => true) ["admin@x"] []
        ⟨[⟨1, "u1", 5, "NGN", TStatus.pending_input, none, none⟩],
         [⟨1, "http://q", none, none, none⟩]⟩ 1 "http://r" true).result =
      OpResult.err (ErrKind.thrown "storage download failed") ∧
    (uploadUserPaymentReceipt true [⟨"NGN", "RMB", 2, true⟩] (fun _ => false)
        (fun _ => true) (fun _ => true) ["admin@x"] []
        ⟨[⟨1, "u1", 5, "NGN", TStatus.pending_input, none, none⟩],
         [⟨1, "http://q", none, none, none⟩]⟩ 1 "http://r"
        true).state.transactions =
      [⟨1, "u1", 5, "NGN", TStatus.awaiting_confirmation, none, none⟩] := by
  exact ⟨by decide, by decide⟩

/-- C8 (amended): notification fan-out failures are isolated and swallowed
on every path except the attachment fetch of the user-receipt step. Each
admin recipient of the email and chat loops is attempted whatever the other
outcomes; the user-receipt step succeeds for any per-recipient send outcome
once its downloads succeed, and even on a download failure the committed
transition is not rolled back; the operator-receipt step never surfaces a
notification or download failure; creation and webhook results and states are
independent of their notification outcomes. The one exception the
counterexample forces: the user-receipt attachment fetch failure propagates
to the caller. -/
theorem notification_failures_isolated (emailOk waOk downloadOk : String → Bool)
    (adminEmails adminPhones : List String) (rates : List ExchangeRate)
    (st : TxStoreState) (txId : Nat) (receiptUrl : String) (isKycDone : Bool)
    (banks : List BankAccount) (uploadOk notifOk : Bool) (amount : Int)
    (fromCurrency uid : String) (newTxId : Nat) (qrUrl : String)
    (forceVerify : Bool) (verifySig : String → String → Bool) (ast : AppState)
    (p : WebhookPayload) :
    ((notifyAdminsEmails emailOk adminEmails).map Prod.fst = adminEmails ∧
     (notifyAdminsWa waOk adminPhones).map Prod.fst = adminPhones) ∧
    (∀ tx fromAmount,
      st.transactions.find? (fun t => t.id == txId) = some tx →
      convertAmount rates tx.fromCurrency "RMB" tx.amount =
        ConvertResult.ok fromAmount →
      (uploadUserPaymentReceipt true rates downloadOk emailOk waOk adminEmails
          adminPhones st txId receiptUrl isKycDone).state.transactions =
        updateTxStatusById st.transactions txId
          (if isKycDone then TStatus.awaiting_confirmation
           else TStatus.awaiting_kyc_verification) ∧
      ((∀ u, downloadOk u = true) →
        (uploadUserPaymentReceipt true rates downloadOk emailOk waOk adminEmails
            adminPhones st txId receiptUrl isKycDone).result = OpResult.ok)) ∧
    ((uploadAdminPaymentReceipt true downloadOk notifOk st txId
        receiptUrl).result = OpResult.ok) ∧
    ((createAlipayTransaction banks uploadOk true amount fromCurrency uid
        newTxId qrUrl st).result =
      (createAlipayTransaction banks uploadOk notifOk amount fromCurrency uid
        newTxId qrUrl st).result ∧
     (createAlipayTransaction banks uploadOk true amount fromCurrency uid
        newTxId qrUrl st).state =
      (createAlipayTransaction banks uploadOk notifOk amount fromCurrency uid
        newTxId qrUrl st).state) ∧
    ((smileIdCallback forceVerify verifySig true ast p).response =
      (smileIdCallback forceVerify verifySig false ast p).response ∧
     (smileIdCallback forceVerify verifySig true ast p).state =
      (smileIdCallback forceVerify verifySig false ast p).state) := by
  refine ⟨⟨?_, ?_⟩, ?_, ?_, ?_, ?_⟩
  · induction adminEmails with
    | nil => rfl
    | cons a l ih => simpa [notifyAdminsEmails] using ih
  · induction adminPhones with
    | nil => rfl
    | cons a l ih => simpa [notifyAdminsWa] using ih
  · intro tx fromAmount hfind hconv
    unfold uploadUserPaymentReceipt
    rw [if_pos rfl, hfind]
    dsimp only
    rw [hconv]
    dsimp only
    constructor
    · split
      · rfl
      · rfl
    · intro hdl
      rw [if_pos (by rw [hdl, hdl]; rfl)]
  · unfold uploadAdminPaymentReceipt
    rw [if_pos rfl]
  · rcases hb : banks.find? (fun b => b.isDefault && b.currency == fromCurrency)
        with _ | b
    · unfold createAlipayTransaction
      rw [hb]
      exact ⟨rfl, rfl⟩
    · unfold createAlipayTransaction
      rw [hb]
      cases uploadOk
      · exact ⟨rfl, rfl⟩
      · exact ⟨rfl, rfl⟩
  · unfold smileIdCallback
    rcases hs : p.signature with _ | sig <;>
      rcases ht : p.timestamp with _ | ts <;>
        (try dsimp only)
    · exact ⟨rfl, rfl⟩
    · exact ⟨rfl, rfl⟩
    · exact ⟨rfl, rfl⟩
    · by_cases hv : verifySig sig ts = true
      · simp only [if_pos hv]
        by_cases hint : isIntermediateSuccessCode p.resultCode = true
        · simp only [if_pos hint]
          exact ⟨trivial, trivial⟩
        · simp only [if_neg hint]
          rcases hpu : p.userId with _ | uid <;> (try dsimp only)
          · exact ⟨rfl, rfl⟩
          · rcases htar : locateTarget ast.verifications uid
                (webhookIsVerified forceVerify p) (isThisFinalResult p) with _ | v <;>
              (try dsimp only)
            · exact ⟨rfl, rfl⟩
            · by_cases hskip : (!(isThisFinalResult p) && !(isFailedCode p.resultCode)) = true
              · simp only [if_pos hskip]
                exact ⟨trivial, trivial⟩
              · simp only [if_neg hskip]
                by_cases hver : webhookIsVerified forceVerify p = true
                · simp only [if_pos hver]
                  exact ⟨trivial, trivial⟩
                · simp only [if_neg hver]
                  exact ⟨trivial, trivial⟩
      · simp only [if_neg hv]
        exact ⟨trivial, trivial⟩

/-- C8 witness: the user-receipt step with all sends failing but downloads
succeeding still returns normally. -/
theorem notification_failures_isolated_witness :
    (uploadUserPaymentReceipt true [⟨"NGN", "RMB", 2, true⟩] (fun _ => true)
        (fun _ => false) (fun _ => false) ["admin@x"] []
        ⟨[⟨1, "u1", 5, "NGN", TStatus.pending_input, none, none⟩],
         [⟨1, "http://q", none, none, none⟩]⟩ 1 "http://r" true).result =
      OpResult.ok := by
  exact ((notification_failures_isolated (fun _ => false) (fun _ => false)
      (fun _ => true) ["admin@x"] [] [⟨"NGN", "RMB", 2, true⟩]
      ⟨[⟨1, "u1", 5, "NGN", TStatus.pending_input, none, none⟩],
       [⟨1, "http://q", none, none, none⟩]⟩ 1 "http://r" true [] true true 5
      "NGN" "u1" 7 "http://q" false (fun _ _ => true) ⟨[], [], []⟩
      ⟨none, none, "0000", false, "u", "u", "u", none⟩).2.1
    ⟨1, "u1", 5, "NGN", TStatus.pending_input, none, none⟩ 10 (by decide)
    (by decide)).2 (fun _ => rfl)
